import Mathlib

/-!
# Host program of the vector-addition offload (src/homework/vector_add/main.c)

The C routine `main` is a straight line of calls into the matrix codec, the
platform directory and the OpenCL runtime, interrupted by `CHECK_ERR` exits.
It is embedded as a function from a `World` (everything the outside answers:
the command line, the loaded matrices, the status every runtime call returns,
the initial contents of fresh device buffers) to a `Run` (the calls issued in
program order, both output streams, the matrix handed to `SaveMatrix`, the
exit status).

Conventions of the embedding:
* `unsigned int` values are naturals reduced `% 2 ^ 32`; `size_t` values are
  naturals reduced `% 2 ^ 64` (LP64 host).
* `float` is an abstract element type `α` with its addition; `float *` is a map
  from element index to value, a transfer of `cb` bytes moves the elements of
  index below `cb / sizeof(float)`.
* every runtime call is synchronous; a call that returns a non-success status
  has no effect on host or device memory.
* the access flags passed to `clCreateBuffer` are recorded in the trace and
  govern what the kernel reads: a kernel read of a CL_MEM_WRITE_ONLY buffer is
  undefined in OpenCL and is answered by the world, not by the buffer contents.
* the statuses of the world are arbitrary integers, so every behaviour of the
  runtime is covered; nothing ties the status of one call to that of another.
-/

namespace VectorAdd

/-! ## Constants and types of the headers -/

abbrev cl_int := Int

def CL_SUCCESS : cl_int := 0

def EXIT_FAILURE : Int := 1

def KERNEL_PATH : String := "kernel.cl"

/-- Width in bits of `unsigned int`. -/
def UINT_BITS : Nat := 32

/-- Width in bits of `size_t`. -/
def SIZE_BITS : Nat := 64

/-- Value of `sizeof(float)`. -/
def sizeof_float : Nat := 4

/-- Value of `sizeof(cl_mem)`. -/
def sizeof_cl_mem : Nat := 8

/-- Value of `sizeof(unsigned int)`. -/
def sizeof_unsigned_int : Nat := 4

/-- Host matrix as `main` uses it: `shape[0]`, `shape[1]` and the `data` pointer. -/
structure Matrix (α : Type) where
  shape : Nat × Nat
  data : Nat → α

structure OclDeviceProp where
  device_id : Nat
deriving DecidableEq

structure OclPlatformProp where
  devices : List OclDeviceProp
deriving DecidableEq

/-- The three device buffers of `main`. -/
inductive Buf where
  | device_a
  | device_b
  | device_c
deriving DecidableEq

/-- Heap blocks owned by the host side of `main`. -/
inductive HostPtr where
  | host_a_data
  | host_b_data
  | host_c_data
  | kernel_source
deriving DecidableEq

inductive MemFlags where
  | CL_MEM_READ_WRITE
  | CL_MEM_WRITE_ONLY
  | CL_MEM_READ_ONLY
deriving DecidableEq

/-- Value bound to a kernel argument slot. -/
inductive KArg where
  | mem (buf : Buf)
  | uint (value : Nat)
deriving DecidableEq

/-- One call issued by `main`, with the arguments that matter. -/
inductive Call where
  | OclLoadKernel (path : String)
  | LoadMatrix (path : String) (into : HostPtr)
  | OclFindPlatforms
  | clCreateContext (device : Nat)
  | clCreateCommandQueueWithProperties (device : Nat)
  | clCreateProgramWithSource (source : String)
  | clBuildProgram
  | clCreateKernel (name : String)
  | clCreateBuffer (buf : Buf) (flags : MemFlags) (size : Nat)
  | clEnqueueWriteBuffer (buf : Buf) (cb : Nat) (src : HostPtr)
  | clSetKernelArg (index : Nat) (arg_size : Nat) (arg : KArg)
  | clEnqueueNDRangeKernel (work_dim : Nat) (global_work_size : Nat) (local_work_size : Nat)
  | clFinish
  | clEnqueueReadBuffer (buf : Buf) (cb : Nat) (dst : HostPtr)
  | SaveMatrix (path : String) (shape : Nat × Nat)
  | clReleaseMemObject (buf : Buf)
  | clReleaseKernel
  | clReleaseProgram
  | clReleaseCommandQueue
  | clReleaseContext
  | free (p : HostPtr)
  | exit (status : Int)
deriving DecidableEq

/-- One message on standard error. -/
inductive Diag where
  | usage (prog : String)
  | failed (msg : String) (err : cl_int)
deriving DecidableEq

/-- One line on standard output. -/
inductive Line (α : Type) where
  | shape (label : String) (rows : Nat) (cols : Nat)
  | elem (i : Nat) (computed : α) (expected : α)

/-- Everything the environment answers to `main`. `fresh` is the initial contents of
a newly created buffer; `write_only_read buf mem` is what a kernel obtains when it
reads the buffer `buf`, of contents `mem`, created CL_MEM_WRITE_ONLY. -/
structure World (α : Type) where
  argc : Nat
  argv : Nat → String
  OclLoadKernel : String
  LoadMatrix : String → cl_int × Matrix α
  enum_status : cl_int
  enum_platforms : List OclPlatformProp
  clCreateContext : cl_int
  clCreateCommandQueueWithProperties : cl_int
  clCreateProgramWithSource : cl_int
  clBuildProgram : cl_int
  clCreateKernel : cl_int
  clCreateBuffer : Buf → cl_int
  fresh : Buf → Nat → α
  write_only_read : Buf → (Nat → α) → Nat → α
  clEnqueueWriteBuffer : Buf → cl_int
  clSetKernelArg : Nat → cl_int
  clEnqueueNDRangeKernel : cl_int
  clFinish : cl_int
  clEnqueueReadBuffer : cl_int
  SaveMatrix : cl_int

/-- Observable outcome of one execution of `main`: the calls in program order, the
two output streams, the matrix handed to `SaveMatrix` (if it was called) and the
exit status; `exit = none` stands for an out-of-bounds read of the platform table
(no defined continuation). -/
structure Run (α : Type) where
  trace : List Call
  stderr : List Diag
  stdout : List (Line α)
  saved : Option (Matrix α)
  exit : Option Int

/-! ## Collaborators that are not part of main.c -/

/-- Status reported by discovery when no platform exists. -/
def DISCOVERY_ERROR : cl_int := -1

/-- Modelled from the spec: OclFindPlatforms is declared in device.h and its body
is not under src/. Section 4.1 of the spec: discovery yields the ordered sequence
of platform descriptors and fails if the runtime reports zero platforms or an
enumeration call errors. The result is the status, the table and its length. -/
def OclFindPlatforms (enum_status : cl_int) (found : List OclPlatformProp) :
    cl_int × List OclPlatformProp × Nat :=
  if enum_status ≠ CL_SUCCESS then (enum_status, [], 0)
  else if found.length = 0 then (DISCOVERY_ERROR, [], 0)
  else (CL_SUCCESS, found, found.length)

/-- Modelled from the spec: kernel.cl is not under src/. Sections 1 and 6 of the
spec: one entry point over (read-only A, read-only B, write-only C, element count)
computing the elementwise sum, one work-item per element. Work-item `gid` stores
`A[gid] + B[gid]` in `C[gid]` when `gid` is below the element count. -/
def vectorAdd {α : Type} [Add α] (a b c : Nat → α) (n gid : Nat) : Nat → α :=
  if gid < n then Function.update c gid (a gid + b gid) else c

/-- What a kernel reads from a buffer of contents `mem`. OpenCL leaves a kernel read of
a buffer created CL_MEM_WRITE_ONLY undefined: the world decides what comes back, which
may or may not be the contents. Buffers created with another flag read as their
contents. -/
def kernel_read {α : Type} (w : World α) (flags : MemFlags) (buf : Buf) (mem : Nat → α) :
    Nat → α :=
  match flags with
  | MemFlags.CL_MEM_WRITE_ONLY => w.write_only_read buf mem
  | MemFlags.CL_MEM_READ_WRITE => mem
  | MemFlags.CL_MEM_READ_ONLY => mem

/-- One-dimensional NDRange execution of `vectorAdd` on the buffers bound to arguments
0, 1 and 2, created with `flags_a` and `flags_b` for the two inputs: every work-item of
global id below `global_work_size` runs once; work-items touch pairwise distinct cells
of the output. The inputs are what the kernel reads, see `kernel_read`. -/
def runKernel {α : Type} [Add α] (w : World α) (flags_a flags_b : MemFlags)
    (a b c : Nat → α) (n global_work_size : Nat) : Nat → α :=
  fun i =>
    if i < global_work_size then
      vectorAdd (kernel_read w flags_a Buf.device_a a) (kernel_read w flags_b Buf.device_b b)
        c n i i
    else c i

/-- Blocking transfer of `cb` bytes between a host block and a device buffer. -/
def transfer {α : Type} (cb : Nat) (src dst : Nat → α) : Nat → α :=
  fun i => if i < cb / sizeof_float then src i else dst i

/-! ## main -/

/-- Failing branch of the CHECK_ERR text replacement: message on standard error, then
`exit(EXIT_FAILURE)`. -/
def abort {α : Type} (trace : List Call) (stdout : List (Line α)) (msg : String)
    (err : cl_int) : Run α :=
  { trace := trace ++ [Call.exit EXIT_FAILURE]
    stderr := [Diag.failed msg err]
    stdout := stdout
    saved := none
    exit := some EXIT_FAILURE }

/-- Index expression `platforms[0].devices[0].device_id`. -/
def first_device_id (platforms : List OclPlatformProp) : Option Nat :=
  match platforms with
  | [] => none
  | p :: _ =>
    match p.devices with
    | [] => none
    | d :: _ => some d.device_id

/-- Value of `size_a`: `host_a.shape[0] * host_a.shape[1]` in `unsigned int`. -/
def size_a {α : Type} (host_a : Matrix α) : Nat :=
  (host_a.shape.1 * host_a.shape.2) % 2 ^ UINT_BITS

/-- Value of `size_a*sizeof(float)` in `size_t`. -/
def byte_count (size : Nat) : Nat :=
  (size * sizeof_float) % 2 ^ SIZE_BITS

/-- Lines 89 to 147 of main.c: everything after the kernel lookup succeeded. -/
def offload {α : Type} [Add α] (w : World α) (output_file : String)
    (host_a host_b host_c : Matrix α) (t : List Call) (out : List (Line α)) : Run α :=
  let size_a := size_a host_a
  -- 92-94: the statuses written to err are never read
  let t := t ++ [Call.clCreateBuffer Buf.device_a MemFlags.CL_MEM_WRITE_ONLY (byte_count size_a),
                 Call.clCreateBuffer Buf.device_b MemFlags.CL_MEM_WRITE_ONLY (byte_count size_a),
                 Call.clCreateBuffer Buf.device_c MemFlags.CL_MEM_WRITE_ONLY (byte_count size_a)]
  -- 97-98: return values dropped
  let t := t ++ [Call.clEnqueueWriteBuffer Buf.device_a (byte_count size_a) HostPtr.host_a_data,
                 Call.clEnqueueWriteBuffer Buf.device_b (byte_count size_a) HostPtr.host_b_data]
  let mem_a := if w.clEnqueueWriteBuffer Buf.device_a = CL_SUCCESS
    then transfer (byte_count size_a) host_a.data (w.fresh Buf.device_a) else w.fresh Buf.device_a
  let mem_b := if w.clEnqueueWriteBuffer Buf.device_b = CL_SUCCESS
    then transfer (byte_count size_a) host_b.data (w.fresh Buf.device_b) else w.fresh Buf.device_b
  let mem_c := w.fresh Buf.device_c
  -- 101-108
  let err := w.clSetKernelArg 0
  let t := t ++ [Call.clSetKernelArg 0 sizeof_cl_mem (KArg.mem Buf.device_a)]
  if err ≠ CL_SUCCESS then abort t out "clSetKernelArg 0" err else
  let err := Int.lor err (w.clSetKernelArg 1)
  let t := t ++ [Call.clSetKernelArg 1 sizeof_cl_mem (KArg.mem Buf.device_b)]
  if err ≠ CL_SUCCESS then abort t out "clSetKernelArg 1" err else
  let err := Int.lor err (w.clSetKernelArg 2)
  let t := t ++ [Call.clSetKernelArg 2 sizeof_cl_mem (KArg.mem Buf.device_c)]
  if err ≠ CL_SUCCESS then abort t out "clSetKernelArg 2" err else
  let err := Int.lor err (w.clSetKernelArg 3)
  let t := t ++ [Call.clSetKernelArg 3 sizeof_unsigned_int (KArg.uint size_a)]
  if err ≠ CL_SUCCESS then abort t out "clSetKernelArg 3" err else
  -- 111-112
  let global_item_size := size_a % 2 ^ SIZE_BITS
  let local_item_size := 1
  -- 115-116: err is assigned and not read again before line 122
  let t := t ++ [Call.clEnqueueNDRangeKernel 1 global_item_size local_item_size, Call.clFinish]
  let mem_c := if w.clEnqueueNDRangeKernel = CL_SUCCESS
    then runKernel w MemFlags.CL_MEM_WRITE_ONLY MemFlags.CL_MEM_WRITE_ONLY mem_a mem_b mem_c
      size_a global_item_size
    else mem_c
  -- 119
  let t := t ++ [Call.clEnqueueReadBuffer Buf.device_c (byte_count size_a) HostPtr.host_c_data]
  let host_c : Matrix α :=
    { shape := host_c.shape
      data := if w.clEnqueueReadBuffer = CL_SUCCESS
        then transfer (byte_count size_a) mem_c host_c.data else host_c.data }
  -- 122-123
  let err := w.SaveMatrix
  let t := t ++ [Call.SaveMatrix output_file host_c.shape]
  if err ≠ CL_SUCCESS then { abort t out "SaveMatrix" err with saved := some host_c } else
  -- 126-130
  let out := out ++ [Line.shape "Output Vector Shape" host_c.shape.1 host_c.shape.2]
  let out := out ++ (List.range ((host_c.shape.1 * host_c.shape.2) % 2 ^ UINT_BITS)).map
    (fun i => Line.elem i (host_c.data i) (host_a.data i + host_b.data i))
  -- 133-145
  let t := t ++ [Call.clReleaseMemObject Buf.device_a, Call.clReleaseMemObject Buf.device_b,
                 Call.clReleaseMemObject Buf.device_c, Call.clReleaseKernel, Call.clReleaseProgram,
                 Call.clReleaseCommandQueue, Call.clReleaseContext,
                 Call.free HostPtr.host_a_data, Call.free HostPtr.host_b_data,
                 Call.free HostPtr.host_c_data, Call.free HostPtr.kernel_source]
  { trace := t, stderr := [], stdout := out, saved := some host_c, exit := some 0 }

/-- The routine `main` of main.c. -/
def main {α : Type} [Add α] (w : World α) : Run α :=
  -- 19-23
  if w.argc ≠ 4 then
    { trace := [], stderr := [Diag.usage (w.argv 0)], stdout := [], saved := none,
      exit := some (-1) }
  else
  let input_file_a := w.argv 1
  let input_file_b := w.argv 2
  let output_file := w.argv 3
  -- 30
  let kernel_source := w.OclLoadKernel
  let t := [Call.OclLoadKernel KERNEL_PATH]
  -- 48-50
  let err := (w.LoadMatrix input_file_a).1
  let host_a := (w.LoadMatrix input_file_a).2
  let t := t ++ [Call.LoadMatrix input_file_a HostPtr.host_a_data]
  if err ≠ CL_SUCCESS then abort t [] "LoadMatrix" err else
  let out := [Line.shape "Input0 Vector Shape" host_a.shape.1 host_a.shape.2]
  -- 52-54
  let err := (w.LoadMatrix input_file_b).1
  let host_b := (w.LoadMatrix input_file_b).2
  let t := t ++ [Call.LoadMatrix input_file_b HostPtr.host_b_data]
  if err ≠ CL_SUCCESS then abort t out "LoadMatrix" err else
  let out := out ++ [Line.shape "Input1 Vector Shape" host_b.shape.1 host_b.shape.2]
  -- 56-57
  let err := (w.LoadMatrix output_file).1
  let host_c := (w.LoadMatrix output_file).2
  let t := t ++ [Call.LoadMatrix output_file HostPtr.host_c_data]
  if err ≠ CL_SUCCESS then abort t out "LoadMatrix" err else
  -- 63-64
  let found := OclFindPlatforms w.enum_status w.enum_platforms
  let err := found.1
  let platforms := found.2.1
  let t := t ++ [Call.OclFindPlatforms]
  if err ≠ CL_SUCCESS then abort t out "OclFindPlatforms" err else
  -- 67
  match first_device_id platforms with
  | none => { trace := t, stderr := [], stdout := out, saved := none, exit := none }
  | some device_id =>
  -- 70-71
  let err := w.clCreateContext
  let t := t ++ [Call.clCreateContext device_id]
  if err ≠ CL_SUCCESS then abort t out "clCreateContext" err else
  -- 74-75
  let err := w.clCreateCommandQueueWithProperties
  let t := t ++ [Call.clCreateCommandQueueWithProperties device_id]
  if err ≠ CL_SUCCESS then abort t out "clCreateCommandQueueWithProperties" err else
  -- 78-79
  let err := w.clCreateProgramWithSource
  let t := t ++ [Call.clCreateProgramWithSource kernel_source]
  if err ≠ CL_SUCCESS then abort t out "clCreateProgramWithSource" err else
  -- 82-83
  let err := w.clBuildProgram
  let t := t ++ [Call.clBuildProgram]
  if err ≠ CL_SUCCESS then abort t out "clBuildProgram" err else
  -- 86-87
  let err := w.clCreateKernel
  let t := t ++ [Call.clCreateKernel "vectorAdd"]
  if err ≠ CL_SUCCESS then abort t out "clCreateKernel" err else
  offload w output_file host_a host_b host_c t out

/-! ## Vocabulary for statements about runs -/

/-- Calls of a run up to and including the kernel lookup, in program order. -/
def setup_calls {α : Type} (w : World α) (dev : Nat) : List Call :=
  [Call.OclLoadKernel KERNEL_PATH, Call.LoadMatrix (w.argv 1) HostPtr.host_a_data,
   Call.LoadMatrix (w.argv 2) HostPtr.host_b_data, Call.LoadMatrix (w.argv 3) HostPtr.host_c_data,
   Call.OclFindPlatforms, Call.clCreateContext dev, Call.clCreateCommandQueueWithProperties dev,
   Call.clCreateProgramWithSource w.OclLoadKernel, Call.clBuildProgram,
   Call.clCreateKernel "vectorAdd"]

/-- The three allocations and the two uploads for element count `n`. -/
def buffer_calls (n : Nat) : List Call :=
  [Call.clCreateBuffer Buf.device_a MemFlags.CL_MEM_WRITE_ONLY (byte_count n),
   Call.clCreateBuffer Buf.device_b MemFlags.CL_MEM_WRITE_ONLY (byte_count n),
   Call.clCreateBuffer Buf.device_c MemFlags.CL_MEM_WRITE_ONLY (byte_count n),
   Call.clEnqueueWriteBuffer Buf.device_a (byte_count n) HostPtr.host_a_data,
   Call.clEnqueueWriteBuffer Buf.device_b (byte_count n) HostPtr.host_b_data]

/-- The four argument bindings for element count `n`. -/
def bind_calls (n : Nat) : List Call :=
  [Call.clSetKernelArg 0 sizeof_cl_mem (KArg.mem Buf.device_a),
   Call.clSetKernelArg 1 sizeof_cl_mem (KArg.mem Buf.device_b),
   Call.clSetKernelArg 2 sizeof_cl_mem (KArg.mem Buf.device_c),
   Call.clSetKernelArg 3 sizeof_unsigned_int (KArg.uint n)]

/-- Launch, barrier and download for element count `n`. -/
def dispatch_calls (n : Nat) : List Call :=
  [Call.clEnqueueNDRangeKernel 1 (n % 2 ^ SIZE_BITS) 1, Call.clFinish,
   Call.clEnqueueReadBuffer Buf.device_c (byte_count n) HostPtr.host_c_data]

/-- The calls of lines 133 to 145. -/
def teardown_calls : List Call :=
  [Call.clReleaseMemObject Buf.device_a, Call.clReleaseMemObject Buf.device_b,
   Call.clReleaseMemObject Buf.device_c, Call.clReleaseKernel, Call.clReleaseProgram,
   Call.clReleaseCommandQueue, Call.clReleaseContext,
   Call.free HostPtr.host_a_data, Call.free HostPtr.host_b_data,
   Call.free HostPtr.host_c_data, Call.free HostPtr.kernel_source]

/-- Contents of `device_c` when the download is issued. -/
def device_c_at_download {α : Type} [Add α] (w : World α) (host_a host_b : Matrix α) : Nat → α :=
  if w.clEnqueueNDRangeKernel = CL_SUCCESS then
    runKernel w MemFlags.CL_MEM_WRITE_ONLY MemFlags.CL_MEM_WRITE_ONLY
      (if w.clEnqueueWriteBuffer Buf.device_a = CL_SUCCESS
        then transfer (byte_count (size_a host_a)) host_a.data (w.fresh Buf.device_a)
        else w.fresh Buf.device_a)
      (if w.clEnqueueWriteBuffer Buf.device_b = CL_SUCCESS
        then transfer (byte_count (size_a host_a)) host_b.data (w.fresh Buf.device_b)
        else w.fresh Buf.device_b)
      (w.fresh Buf.device_c) (size_a host_a) (size_a host_a % 2 ^ SIZE_BITS)
  else w.fresh Buf.device_c

/-- The matrix `host_c` when `SaveMatrix` is called. -/
def host_c_at_save {α : Type} [Add α] (w : World α) (host_a host_b host_c : Matrix α) : Matrix α :=
  { shape := host_c.shape
    data := if w.clEnqueueReadBuffer = CL_SUCCESS
      then transfer (byte_count (size_a host_a)) (device_c_at_download w host_a host_b) host_c.data
      else host_c.data }

/-- Calls that can occur before the first device buffer is created. -/
def isSetup : Call → Bool
  | Call.OclLoadKernel _ => true
  | Call.LoadMatrix _ _ => true
  | Call.OclFindPlatforms => true
  | Call.clCreateContext _ => true
  | Call.clCreateCommandQueueWithProperties _ => true
  | Call.clCreateProgramWithSource _ => true
  | Call.clBuildProgram => true
  | Call.clCreateKernel _ => true
  | Call.exit _ => true
  | _ => false

/-- Calls that give a resource back: the clRelease family and `free`. -/
def isRelease : Call → Bool
  | Call.clReleaseMemObject _ => true
  | Call.clReleaseKernel => true
  | Call.clReleaseProgram => true
  | Call.clReleaseCommandQueue => true
  | Call.clReleaseContext => true
  | Call.free _ => true
  | _ => false

/-- Device to host copies. -/
def isDownload : Call → Bool
  | Call.clEnqueueReadBuffer _ _ _ => true
  | _ => false

/-- OpenCL objects that `main` creates and gives back. -/
inductive Resource where
  | context
  | queue
  | program
  | kernel
  | buffer (buf : Buf)
deriving DecidableEq

/-- The object a call creates, if any. -/
def acquires : Call → Option Resource
  | Call.clCreateContext _ => some Resource.context
  | Call.clCreateCommandQueueWithProperties _ => some Resource.queue
  | Call.clCreateProgramWithSource _ => some Resource.program
  | Call.clCreateKernel _ => some Resource.kernel
  | Call.clCreateBuffer b _ _ => some (Resource.buffer b)
  | _ => none

/-- The object a call gives back, if any. -/
def gives_back : Call → Option Resource
  | Call.clReleaseContext => some Resource.context
  | Call.clReleaseCommandQueue => some Resource.queue
  | Call.clReleaseProgram => some Resource.program
  | Call.clReleaseKernel => some Resource.kernel
  | Call.clReleaseMemObject b => some (Resource.buffer b)
  | _ => none

/-- Objects created along a trace, in order. -/
def acquisitions (t : List Call) : List Resource := t.filterMap acquires

/-- Objects given back along a trace, in order. -/
def given_back (t : List Call) : List Resource := t.filterMap gives_back

/-- Host to device and device to host copies. -/
def isTransfer : Call → Bool
  | Call.clEnqueueWriteBuffer _ _ _ => true
  | Call.clEnqueueReadBuffer _ _ _ => true
  | _ => false

/-- Launches. -/
def isLaunch : Call → Bool
  | Call.clEnqueueNDRangeKernel _ _ _ => true
  | _ => false

/-- The matrix `host_a` after line 48. -/
def host_a {α : Type} (w : World α) : Matrix α := (w.LoadMatrix (w.argv 1)).2

/-- The matrix `host_b` after line 52. -/
def host_b {α : Type} (w : World α) : Matrix α := (w.LoadMatrix (w.argv 2)).2

/-- The matrix `host_c` after line 56: the pre-existing contents of the output path. -/
def host_c {α : Type} (w : World α) : Matrix α := (w.LoadMatrix (w.argv 3)).2

/-- Every call of the run reports success: three paths on the command line, the three
loads, discovery with a first device, and every OpenCL call, whether `main` checks
its status or not. -/
def AllSucceed {α : Type} (w : World α) : Prop :=
  w.argc = 4 ∧
  (w.LoadMatrix (w.argv 1)).1 = CL_SUCCESS ∧
  (w.LoadMatrix (w.argv 2)).1 = CL_SUCCESS ∧
  (w.LoadMatrix (w.argv 3)).1 = CL_SUCCESS ∧
  w.enum_status = CL_SUCCESS ∧
  (first_device_id w.enum_platforms).isSome = true ∧
  w.clCreateContext = CL_SUCCESS ∧
  w.clCreateCommandQueueWithProperties = CL_SUCCESS ∧
  w.clCreateProgramWithSource = CL_SUCCESS ∧
  w.clBuildProgram = CL_SUCCESS ∧
  w.clCreateKernel = CL_SUCCESS ∧
  w.clCreateBuffer Buf.device_a = CL_SUCCESS ∧
  w.clCreateBuffer Buf.device_b = CL_SUCCESS ∧
  w.clCreateBuffer Buf.device_c = CL_SUCCESS ∧
  w.clEnqueueWriteBuffer Buf.device_a = CL_SUCCESS ∧
  w.clEnqueueWriteBuffer Buf.device_b = CL_SUCCESS ∧
  w.clSetKernelArg 0 = CL_SUCCESS ∧
  w.clSetKernelArg 1 = CL_SUCCESS ∧
  w.clSetKernelArg 2 = CL_SUCCESS ∧
  w.clSetKernelArg 3 = CL_SUCCESS ∧
  w.clEnqueueNDRangeKernel = CL_SUCCESS ∧
  w.clFinish = CL_SUCCESS ∧
  w.clEnqueueReadBuffer = CL_SUCCESS ∧
  w.SaveMatrix = CL_SUCCESS

instance {α : Type} (w : World α) : Decidable (AllSucceed w) := by
  unfold AllSucceed
  infer_instance

/-- The device serves kernel reads of write-only buffers from their contents. -/
def ReadsThrough {α : Type} (w : World α) : Prop :=
  ∀ buf mem, w.write_only_read buf mem = mem

/-- The tests `main` makes: for a call that is followed by CHECK_ERR, the message of
that CHECK_ERR and the status it tests; `none` for a call whose status is never
tested (lines 30, 92 to 98, 115 to 119, 133 to 145). -/
def check {α : Type} (w : World α) : Call → Option (String × cl_int)
  | Call.LoadMatrix path _ => some ("LoadMatrix", (w.LoadMatrix path).1)
  | Call.OclFindPlatforms =>
    some ("OclFindPlatforms", (OclFindPlatforms w.enum_status w.enum_platforms).1)
  | Call.clCreateContext _ => some ("clCreateContext", w.clCreateContext)
  | Call.clCreateCommandQueueWithProperties _ =>
    some ("clCreateCommandQueueWithProperties", w.clCreateCommandQueueWithProperties)
  | Call.clCreateProgramWithSource _ =>
    some ("clCreateProgramWithSource", w.clCreateProgramWithSource)
  | Call.clBuildProgram => some ("clBuildProgram", w.clBuildProgram)
  | Call.clCreateKernel _ => some ("clCreateKernel", w.clCreateKernel)
  | Call.clSetKernelArg 0 _ _ => some ("clSetKernelArg 0", w.clSetKernelArg 0)
  | Call.clSetKernelArg 1 _ _ => some ("clSetKernelArg 1", w.clSetKernelArg 1)
  | Call.clSetKernelArg 2 _ _ => some ("clSetKernelArg 2", w.clSetKernelArg 2)
  | Call.clSetKernelArg 3 _ _ => some ("clSetKernelArg 3", w.clSetKernelArg 3)
  | Call.SaveMatrix _ _ => some ("SaveMatrix", w.SaveMatrix)
  | _ => none

/-- The first call of a sequence whose tested status is not CL_SUCCESS, with the calls
before it, the message and the status; `none` when every tested status is
CL_SUCCESS. -/
def first_failure {α : Type} (w : World α) : List Call → Option (List Call × Call × String × cl_int)
  | [] => none
  | c :: cs =>
    match check w c with
    | some (msg, err) =>
      if err ≠ CL_SUCCESS then some ([], c, msg, err)
      else (first_failure w cs).map (fun r => (c :: r.1, r.2))
    | none => (first_failure w cs).map (fun r => (c :: r.1, r.2))

/-- The calls of lines 30 to 122 in program order, for the device `dev`. -/
def full_calls {α : Type} (w : World α) (dev : Nat) : List Call :=
  setup_calls w dev ++ buffer_calls (size_a (host_a w)) ++ bind_calls (size_a (host_a w)) ++
    dispatch_calls (size_a (host_a w)) ++ [Call.SaveMatrix (w.argv 3) (host_c w).shape]

/-- Three paths on the command line and every step up to the kernel lookup reports
success, with a first device on the first platform. -/
def SetupOk {α : Type} (w : World α) : Prop :=
  w.argc = 4 ∧
  (w.LoadMatrix (w.argv 1)).1 = CL_SUCCESS ∧
  (w.LoadMatrix (w.argv 2)).1 = CL_SUCCESS ∧
  (w.LoadMatrix (w.argv 3)).1 = CL_SUCCESS ∧
  w.enum_status = CL_SUCCESS ∧
  (first_device_id w.enum_platforms).isSome = true ∧
  w.clCreateContext = CL_SUCCESS ∧
  w.clCreateCommandQueueWithProperties = CL_SUCCESS ∧
  w.clCreateProgramWithSource = CL_SUCCESS ∧
  w.clBuildProgram = CL_SUCCESS ∧
  w.clCreateKernel = CL_SUCCESS

instance {α : Type} (w : World α) : Decidable (SetupOk w) := by
  unfold SetupOk
  infer_instance

/-! ## Concrete worlds -/

/-- A file system holding three matrices under the names a.raw, b.raw and c.raw. -/
def three_files (a b c : Matrix Int) : String → cl_int × Matrix Int :=
  fun path =>
    if path = "a.raw" then (CL_SUCCESS, a)
    else if path = "b.raw" then (CL_SUCCESS, b)
    else (CL_SUCCESS, c)

/-- The command line `vector_add a.raw b.raw c.raw`. -/
def command_line : Nat → String :=
  fun i => ["vector_add", "a.raw", "b.raw", "c.raw"].getD i ""

/-- A world in which one platform with one device exists, every call succeeds and the
device serves kernel reads of write-only buffers from their contents. -/
def world_ok (a b c : Matrix Int) : World Int :=
  { argc := 4
    argv := command_line
    OclLoadKernel := "__kernel void vectorAdd"
    LoadMatrix := three_files a b c
    enum_status := CL_SUCCESS
    enum_platforms := [⟨[⟨7⟩]⟩]
    clCreateContext := CL_SUCCESS
    clCreateCommandQueueWithProperties := CL_SUCCESS
    clCreateProgramWithSource := CL_SUCCESS
    clBuildProgram := CL_SUCCESS
    clCreateKernel := CL_SUCCESS
    clCreateBuffer := fun _ => CL_SUCCESS
    fresh := fun _ _ => 0
    write_only_read := fun _ mem => mem
    clEnqueueWriteBuffer := fun _ => CL_SUCCESS
    clSetKernelArg := fun _ => CL_SUCCESS
    clEnqueueNDRangeKernel := CL_SUCCESS
    clFinish := CL_SUCCESS
    clEnqueueReadBuffer := CL_SUCCESS
    SaveMatrix := CL_SUCCESS }

/-- Operand A of the scenario: 1×4 holding 1, 2, 3, 4. -/
def scenario_a : Matrix Int := ⟨(1, 4), fun i => [1, 2, 3, 4].getD i 0⟩

/-- Operand B of the scenario: 1×4 holding 5, 6, 7, 8. -/
def scenario_b : Matrix Int := ⟨(1, 4), fun i => [5, 6, 7, 8].getD i 0⟩

/-- Output template of the scenario: 1×4 of zeros. -/
def scenario_c : Matrix Int := ⟨(1, 4), fun _ => 0⟩

/-- The scenario of section 8 of the spec. -/
def world_scenario : World Int := world_ok scenario_a scenario_b scenario_c

/-- Three matrices of shape 65536×65537 (more than 2^32 elements each): A is all
ones, B all twos, the template all zeros; every call succeeds. -/
def world_wide : World Int :=
  world_ok ⟨(65536, 65537), fun _ => 1⟩ ⟨(65536, 65537), fun _ => 2⟩ ⟨(65536, 65537), fun _ => 0⟩

/-- Operand B cut down to 1×2 (two elements where A has four). -/
def short_b : Matrix Int := ⟨(1, 2), fun i => [5, 6].getD i 0⟩

/-- The scenario with an operand B of two elements only. -/
def world_short_b : World Int := world_ok scenario_a short_b scenario_c

/-- Output template of shape 2×3, unrelated to the operands. -/
def template_2x3 : Matrix Int := ⟨(2, 3), fun _ => 9⟩

/-- The scenario with a 2×3 output template. -/
def world_template_2x3 : World Int := world_ok scenario_a scenario_b template_2x3

/-- The scenario, except that the launch is rejected with CL_OUT_OF_RESOURCES (-5). -/
def world_launch_fails : World Int :=
  { world_scenario with clEnqueueNDRangeKernel := -5 }

/-- The scenario, except that queue creation fails with CL_OUT_OF_HOST_MEMORY (-6). -/
def world_queue_fails : World Int :=
  { world_scenario with clCreateCommandQueueWithProperties := -6 }

/-- The scenario on a device whose kernels read zeros from write-only buffers. -/
def world_opaque_reads : World Int :=
  { world_scenario with write_only_read := fun _ _ _ => 0 }

/-- The scenario on a host where the runtime enumerates no platform. -/
def world_no_platform : World Int :=
  { world_scenario with enum_platforms := [] }

/-! ## Shape of a run -/

theorem zero_lor (x : Int) : Int.lor 0 x = x := by
  cases x with
  | ofNat n => simp [Int.lor]
  | negSucc n => simp [Int.lor, Nat.ldiff, Nat.bitwise_zero_right]

theorem offload_cases {α : Type} [Add α] (w : World α) (output_file : String)
    (host_a host_b host_c : Matrix α) (t : List Call) (out : List (Line α)) :
    (∃ bs, (∀ c ∈ bs, c ∈ bind_calls (size_a host_a)) ∧
      (offload w output_file host_a host_b host_c t out).trace =
        t ++ buffer_calls (size_a host_a) ++ bs ++ [Call.exit EXIT_FAILURE] ∧
      (offload w output_file host_a host_b host_c t out).saved = none ∧
      (offload w output_file host_a host_b host_c t out).exit = some EXIT_FAILURE ∧
      (offload w output_file host_a host_b host_c t out).stderr ≠ []) ∨
    (∃ tail, (offload w output_file host_a host_b host_c t out).trace =
        t ++ buffer_calls (size_a host_a) ++ bind_calls (size_a host_a) ++
          dispatch_calls (size_a host_a) ++ [Call.SaveMatrix output_file host_c.shape] ++ tail ∧
      (offload w output_file host_a host_b host_c t out).saved =
        some (host_c_at_save w host_a host_b host_c) ∧
      ((tail = [Call.exit EXIT_FAILURE] ∧
          (offload w output_file host_a host_b host_c t out).exit = some EXIT_FAILURE ∧
          (offload w output_file host_a host_b host_c t out).stderr ≠ []) ∨
        (tail = teardown_calls ∧
          (offload w output_file host_a host_b host_c t out).exit = some 0))) := by
  by_cases h0 : w.clSetKernelArg 0 = CL_SUCCESS
  swap
  · left
    refine ⟨[Call.clSetKernelArg 0 sizeof_cl_mem (KArg.mem Buf.device_a)], ?_⟩
    simp [offload, h0, abort, bind_calls, buffer_calls]
  have h0z : w.clSetKernelArg 0 = 0 := h0
  by_cases h1 : w.clSetKernelArg 1 = 0
  swap
  · left
    refine ⟨[Call.clSetKernelArg 0 sizeof_cl_mem (KArg.mem Buf.device_a),
      Call.clSetKernelArg 1 sizeof_cl_mem (KArg.mem Buf.device_b)], ?_⟩
    simp [offload, h0z, h1, zero_lor, abort, bind_calls, buffer_calls, CL_SUCCESS]
  by_cases h2 : w.clSetKernelArg 2 = 0
  swap
  · left
    refine ⟨[Call.clSetKernelArg 0 sizeof_cl_mem (KArg.mem Buf.device_a),
      Call.clSetKernelArg 1 sizeof_cl_mem (KArg.mem Buf.device_b),
      Call.clSetKernelArg 2 sizeof_cl_mem (KArg.mem Buf.device_c)], ?_⟩
    simp [offload, h0z, h1, h2, zero_lor, abort, bind_calls, buffer_calls, CL_SUCCESS]
  by_cases h3 : w.clSetKernelArg 3 = 0
  swap
  · left
    refine ⟨bind_calls (size_a host_a), fun c hc => hc, ?_⟩
    simp [offload, h0z, h1, h2, h3, zero_lor, abort, bind_calls, buffer_calls, CL_SUCCESS]
  right
  by_cases h4 : w.SaveMatrix = 0
  · refine ⟨teardown_calls, ?_, ?_, Or.inr ⟨rfl, ?_⟩⟩ <;>
      simp [offload, h0z, h1, h2, h3, h4, zero_lor, bind_calls, buffer_calls, dispatch_calls,
        teardown_calls, host_c_at_save, device_c_at_download, CL_SUCCESS]
  · refine ⟨[Call.exit EXIT_FAILURE], ?_, ?_, Or.inl ⟨rfl, ?_, ?_⟩⟩ <;>
      simp [offload, h0z, h1, h2, h3, h4, zero_lor, abort, bind_calls, buffer_calls,
        dispatch_calls, host_c_at_save, device_c_at_download, CL_SUCCESS]

/-- Discovery, as modelled, succeeds only on a clean enumeration of at least one platform. -/
theorem OclFindPlatforms_success (st : cl_int) (found : List OclPlatformProp)
    (h : (OclFindPlatforms st found).1 = CL_SUCCESS) :
    st = CL_SUCCESS ∧ found ≠ [] ∧ (OclFindPlatforms st found).2.1 = found := by
  unfold OclFindPlatforms at h ⊢
  by_cases h1 : st = CL_SUCCESS
  · by_cases h2 : found.length = 0
    · simp [h1, h2, DISCOVERY_ERROR, CL_SUCCESS] at h
    · refine ⟨h1, ?_, ?_⟩
      · intro hf; simp [hf] at h2
      · simp [h1, h2]
  · simp [h1] at h

/-- A clean enumeration with a first device passes the discovery test. -/
theorem first_device_of_enum {α : Type} (w : World α) (h1 : w.enum_status = CL_SUCCESS)
    (h2 : (first_device_id w.enum_platforms).isSome = true) :
    (OclFindPlatforms w.enum_status w.enum_platforms).1 = CL_SUCCESS ∧
    ∃ dev, first_device_id (OclFindPlatforms w.enum_status w.enum_platforms).2.1 = some dev := by
  have hne : w.enum_platforms.length ≠ 0 := by
    intro h0
    have : w.enum_platforms = [] := List.length_eq_zero.mp h0
    rw [this] at h2
    simp [first_device_id] at h2
  obtain ⟨dev, hdev⟩ := Option.isSome_iff_exists.mp h2
  refine ⟨by simp [OclFindPlatforms, h1, hne], dev, ?_⟩
  simp [OclFindPlatforms, h1, hne, hdev]

/-- Every run either enters the device phase after a complete setup, or stops during
setup without invoking `SaveMatrix`. -/
theorem main_cases {α : Type} [Add α] (w : World α) :
    (∃ dev, w.argc = 4 ∧ (OclFindPlatforms w.enum_status w.enum_platforms).1 = CL_SUCCESS ∧
      main w = offload w (w.argv 3) (w.LoadMatrix (w.argv 1)).2 (w.LoadMatrix (w.argv 2)).2
        (w.LoadMatrix (w.argv 3)).2 (setup_calls w dev)
        [Line.shape "Input0 Vector Shape" (w.LoadMatrix (w.argv 1)).2.shape.1
            (w.LoadMatrix (w.argv 1)).2.shape.2,
          Line.shape "Input1 Vector Shape" (w.LoadMatrix (w.argv 2)).2.shape.1
            (w.LoadMatrix (w.argv 2)).2.shape.2]) ∨
    ((main w).saved = none ∧ (∀ c ∈ (main w).trace, isSetup c = true) ∧
      ((∃ code, code ≠ 0 ∧ (main w).exit = some code ∧ (main w).stderr ≠ []) ∨
        ((main w).exit = none ∧
          (OclFindPlatforms w.enum_status w.enum_platforms).1 = CL_SUCCESS))) := by
  by_cases h0 : w.argc = 4
  swap
  · right; simp [main, h0]
  by_cases h1 : (w.LoadMatrix (w.argv 1)).1 = CL_SUCCESS
  swap
  · right; simp [main, h0, h1, abort, isSetup, EXIT_FAILURE]
  by_cases h2 : (w.LoadMatrix (w.argv 2)).1 = CL_SUCCESS
  swap
  · right; simp [main, h0, h1, h2, abort, isSetup, EXIT_FAILURE]
  by_cases h3 : (w.LoadMatrix (w.argv 3)).1 = CL_SUCCESS
  swap
  · right; simp [main, h0, h1, h2, h3, abort, isSetup, EXIT_FAILURE]
  by_cases h4 : (OclFindPlatforms w.enum_status w.enum_platforms).1 = CL_SUCCESS
  swap
  · right; simp [main, h0, h1, h2, h3, h4, abort, isSetup, EXIT_FAILURE]
  cases hd : first_device_id (OclFindPlatforms w.enum_status w.enum_platforms).2.1 with
  | none => right; simp [main, h0, h1, h2, h3, h4, hd, isSetup]
  | some dev =>
    by_cases h5 : w.clCreateContext = CL_SUCCESS
    swap
    · right; simp [main, h0, h1, h2, h3, h4, hd, h5, abort, isSetup, EXIT_FAILURE]
    by_cases h6 : w.clCreateCommandQueueWithProperties = CL_SUCCESS
    swap
    · right; simp [main, h0, h1, h2, h3, h4, hd, h5, h6, abort, isSetup, EXIT_FAILURE]
    by_cases h7 : w.clCreateProgramWithSource = CL_SUCCESS
    swap
    · right; simp [main, h0, h1, h2, h3, h4, hd, h5, h6, h7, abort, isSetup, EXIT_FAILURE]
    by_cases h8 : w.clBuildProgram = CL_SUCCESS
    swap
    · right; simp [main, h0, h1, h2, h3, h4, hd, h5, h6, h7, h8, abort, isSetup, EXIT_FAILURE]
    by_cases h9 : w.clCreateKernel = CL_SUCCESS
    swap
    · right; simp [main, h0, h1, h2, h3, h4, hd, h5, h6, h7, h8, h9, abort, isSetup, EXIT_FAILURE]
    left
    exact ⟨dev, h0, h4, by simp [main, h0, h1, h2, h3, h4, hd, h5, h6, h7, h8, h9, setup_calls]⟩

/-- The three ways a run can go: it stops during setup; it stops at a failed argument
binding; or it dispatches and reaches `SaveMatrix`. -/
theorem main_shape {α : Type} [Add α] (w : World α) :
    ((main w).saved = none ∧ (∀ c ∈ (main w).trace, isSetup c = true) ∧
      ((∃ code, code ≠ 0 ∧ (main w).exit = some code ∧ (main w).stderr ≠ []) ∨
        ((main w).exit = none ∧
          (OclFindPlatforms w.enum_status w.enum_platforms).1 = CL_SUCCESS))) ∨
    (∃ dev bs, (OclFindPlatforms w.enum_status w.enum_platforms).1 = CL_SUCCESS ∧
      (∀ c ∈ bs, c ∈ bind_calls (size_a (host_a w))) ∧
      (main w).trace = setup_calls w dev ++ buffer_calls (size_a (host_a w)) ++ bs ++
        [Call.exit EXIT_FAILURE] ∧
      (main w).saved = none ∧ (main w).exit = some EXIT_FAILURE ∧ (main w).stderr ≠ []) ∨
    (∃ dev tail, (OclFindPlatforms w.enum_status w.enum_platforms).1 = CL_SUCCESS ∧
      (main w).trace = setup_calls w dev ++ buffer_calls (size_a (host_a w)) ++
        bind_calls (size_a (host_a w)) ++ dispatch_calls (size_a (host_a w)) ++
        [Call.SaveMatrix (w.argv 3) (host_c w).shape] ++ tail ∧
      (main w).saved = some (host_c_at_save w (host_a w) (host_b w) (host_c w)) ∧
      ((tail = [Call.exit EXIT_FAILURE] ∧ (main w).exit = some EXIT_FAILURE ∧
          (main w).stderr ≠ []) ∨
        (tail = teardown_calls ∧ (main w).exit = some 0))) := by
  rcases main_cases w with ⟨dev, _, hd, hm⟩ | h
  · rw [hm]
    rcases offload_cases w (w.argv 3) (w.LoadMatrix (w.argv 1)).2 (w.LoadMatrix (w.argv 2)).2
      (w.LoadMatrix (w.argv 3)).2 (setup_calls w dev)
      [Line.shape "Input0 Vector Shape" (w.LoadMatrix (w.argv 1)).2.shape.1
          (w.LoadMatrix (w.argv 1)).2.shape.2,
        Line.shape "Input1 Vector Shape" (w.LoadMatrix (w.argv 2)).2.shape.1
          (w.LoadMatrix (w.argv 2)).2.shape.2] with ⟨bs, h1, h2, h3, h4, h5⟩ | ⟨tail, h1, h2, h3⟩
    · exact Or.inr (Or.inl ⟨dev, bs, hd, h1, h2, h3, h4, h5⟩)
    · exact Or.inr (Or.inr ⟨dev, tail, hd, h1, h2, h3⟩)
  · exact Or.inl h

theorem size_a_lt {α : Type} (m : Matrix α) : size_a m < 2 ^ 32 := by
  unfold size_a UINT_BITS
  exact Nat.mod_lt _ (by norm_num)

theorem size_t_of_uint (n : Nat) (h : n < 2 ^ 32) : n % 2 ^ SIZE_BITS = n := by
  unfold SIZE_BITS
  exact Nat.mod_eq_of_lt (by omega)

theorem byte_count_eq (n : Nat) (h : n < 2 ^ 32) : byte_count n = 4 * n := by
  unfold byte_count SIZE_BITS sizeof_float
  omega

/-- A run that returns 0 issued the complete call sequence. -/
theorem main_success {α : Type} [Add α] (w : World α) (h : (main w).exit = some 0) :
    ∃ dev, (main w).trace = setup_calls w dev ++ buffer_calls (size_a (host_a w)) ++
        bind_calls (size_a (host_a w)) ++ dispatch_calls (size_a (host_a w)) ++
        [Call.SaveMatrix (w.argv 3) (host_c w).shape] ++ teardown_calls ∧
      (main w).saved = some (host_c_at_save w (host_a w) (host_b w) (host_c w)) := by
  rcases main_shape w with ⟨_, _, ⟨code, hc, he, _⟩ | ⟨he, _⟩⟩ | ⟨dev, bs, _, _, _, _, he, _⟩ |
    ⟨dev, tail, _, ht, hsv, ⟨_, he, _⟩ | ⟨rfl, _⟩⟩
  · rw [he] at h
    simp at h
    exact absurd h hc
  · rw [he] at h
    simp at h
  · rw [he] at h
    simp [EXIT_FAILURE] at h
  · rw [he] at h
    simp [EXIT_FAILURE] at h
  · exact ⟨dev, ht, hsv⟩

/-! ## Launch geometry and ordering -/

/-- Inversion of a launch found in the trace: its arguments, and the binding of the
element count that precedes it. -/
theorem launch_inv {α : Type} [Add α] (w : World α) (d g l : Nat)
    (h : Call.clEnqueueNDRangeKernel d g l ∈ (main w).trace) :
    d = 1 ∧ g = size_a (host_a w) ∧ l = 1 ∧
    Call.clSetKernelArg 3 sizeof_unsigned_int (KArg.uint g) ∈ (main w).trace := by
  rcases main_shape w with ⟨_, hs, _⟩ | ⟨dev, bs, _, hbs, ht, _⟩ | ⟨dev, tail, _, ht, _, htail⟩
  · have := hs _ h
    simp [isSetup] at this
  · rw [ht] at h
    simp [setup_calls, buffer_calls] at h
    have := hbs _ h
    simp [bind_calls] at this
  · rw [ht] at h ⊢
    have hn := size_t_of_uint _ (size_a_lt (host_a w))
    rcases htail with ⟨rfl, _⟩ | ⟨rfl, _⟩ <;>
    · simp [setup_calls, buffer_calls, bind_calls, dispatch_calls, teardown_calls, hn] at h ⊢
      obtain ⟨rfl, rfl, rfl⟩ := h
      simp

/-- C3: in every run that launches the kernel, the launch is one-dimensional with
global work size equal to the element count `size_a` and local work size 1; the same
count is the value bound to kernel argument 3; hence the local size divides the
global size. -/
theorem C3_launch_geometry {α : Type} [Add α] (w : World α) (d g l : Nat)
    (h : Call.clEnqueueNDRangeKernel d g l ∈ (main w).trace) :
    d = 1 ∧ g = size_a (host_a w) ∧ l = 1 ∧
    Call.clSetKernelArg 3 sizeof_unsigned_int (KArg.uint g) ∈ (main w).trace ∧ l ∣ g := by
  obtain ⟨hd, hg, hl, harg⟩ := launch_inv w d g l h
  refine ⟨hd, hg, hl, harg, ?_⟩
  rw [hl]
  exact one_dvd g

/-- Witness of C3 on the scenario of the spec: the launch has global size 4, local size 1. -/
theorem C3_launch_geometry_witness :
    Call.clEnqueueNDRangeKernel 1 4 1 ∈ (main world_scenario).trace ∧
    (1 = 1 ∧ 4 = size_a (host_a world_scenario) ∧ 1 = 1 ∧
      Call.clSetKernelArg 3 sizeof_unsigned_int (KArg.uint 4) ∈ (main world_scenario).trace ∧
      1 ∣ 4) :=
  ⟨by decide, C3_launch_geometry world_scenario 1 4 1 (by decide)⟩

/-- C2: in every run that reaches the launch, the trace reads: calls without any
download or launch, then the launch, the `clFinish` barrier and the download of
`device_c`, then calls without any download or launch. -/
theorem C2_launch_finish_download {α : Type} [Add α] (w : World α) (d g l : Nat)
    (h : Call.clEnqueueNDRangeKernel d g l ∈ (main w).trace) :
    ∃ pre post cb,
      (main w).trace = pre ++ [Call.clEnqueueNDRangeKernel d g l, Call.clFinish,
        Call.clEnqueueReadBuffer Buf.device_c cb HostPtr.host_c_data] ++ post ∧
      (∀ c ∈ pre, isDownload c = false ∧ isLaunch c = false) ∧
      (∀ c ∈ post, isDownload c = false ∧ isLaunch c = false) := by
  rcases main_shape w with ⟨_, hs, _⟩ | ⟨dev, bs, _, hbs, ht, _⟩ | ⟨dev, tail, _, ht, _, htail⟩
  · have := hs _ h
    simp [isSetup] at this
  · rw [ht] at h
    simp [setup_calls, buffer_calls] at h
    have := hbs _ h
    simp [bind_calls] at this
  · have hdgl : d = 1 ∧ g = size_a (host_a w) % 2 ^ SIZE_BITS ∧ l = 1 := by
      rw [ht] at h
      rcases htail with ⟨rfl, _⟩ | ⟨rfl, _⟩ <;>
      · simp [setup_calls, buffer_calls, bind_calls, dispatch_calls, teardown_calls] at h
        exact h
    obtain ⟨rfl, rfl, rfl⟩ := hdgl
    refine ⟨setup_calls w dev ++ buffer_calls (size_a (host_a w)) ++
      bind_calls (size_a (host_a w)),
      [Call.SaveMatrix (w.argv 3) (host_c w).shape] ++ tail,
      byte_count (size_a (host_a w)), ?_, ?_, ?_⟩
    · rw [ht]
      simp [dispatch_calls]
    · intro c hc
      simp [setup_calls, buffer_calls, bind_calls] at hc
      rcases hc with hc | hc | hc | hc | hc | hc | hc | hc | hc | hc | hc | hc | hc | hc | hc |
        hc | hc | hc | hc <;> subst hc <;> simp [isDownload, isLaunch]
    · intro c hc
      rcases htail with ⟨rfl, _⟩ | ⟨rfl, _⟩
      · simp at hc
        rcases hc with hc | hc <;> subst hc <;> simp [isDownload, isLaunch]
      · simp [teardown_calls] at hc
        rcases hc with hc | hc | hc | hc | hc | hc | hc | hc | hc | hc | hc | hc <;>
          subst hc <;> simp [isDownload, isLaunch]

/-- Witness of C2 on the scenario of the spec. -/
theorem C2_launch_finish_download_witness :
    Call.clEnqueueNDRangeKernel 1 4 1 ∈ (main world_scenario).trace ∧
    ∃ pre post cb,
      (main world_scenario).trace = pre ++ [Call.clEnqueueNDRangeKernel 1 4 1, Call.clFinish,
        Call.clEnqueueReadBuffer Buf.device_c cb HostPtr.host_c_data] ++ post ∧
      (∀ c ∈ pre, isDownload c = false ∧ isLaunch c = false) ∧
      (∀ c ∈ post, isDownload c = false ∧ isLaunch c = false) :=
  ⟨by decide, C2_launch_finish_download world_scenario 1 4 1 (by decide)⟩

/-! ## Element count -/

/-- After a successful setup the run is the device phase on the loaded matrices. -/
theorem offload_of_SetupOk {α : Type} [Add α] (w : World α) (h : SetupOk w) :
    ∃ dev, main w = offload w (w.argv 3) (host_a w) (host_b w) (host_c w) (setup_calls w dev)
      [Line.shape "Input0 Vector Shape" (host_a w).shape.1 (host_a w).shape.2,
        Line.shape "Input1 Vector Shape" (host_b w).shape.1 (host_b w).shape.2] := by
  obtain ⟨h0, h1, h2, h3, h4, h5, h6, h7, h8, h9, h10⟩ := h
  obtain ⟨hf, dev, hdev⟩ := first_device_of_enum w h4 h5
  exact ⟨dev, by simp [main, h0, h1, h2, h3, hf, hdev, h6, h7, h8, h9, h10, setup_calls, host_a,
    host_b, host_c]⟩

/-- The allocations are issued whatever the later statuses are. -/
theorem offload_allocates {α : Type} [Add α] (w : World α) (output_file : String)
    (a b c : Matrix α) (t : List Call) (out : List (Line α)) (buf : Buf) :
    Call.clCreateBuffer buf MemFlags.CL_MEM_WRITE_ONLY (size_a a * 4) ∈
      (offload w output_file a b c t out).trace := by
  have hb := byte_count_eq _ (size_a_lt a)
  have h4 : 4 * size_a a = size_a a * 4 := Nat.mul_comm _ _
  rcases offload_cases w output_file a b c t out with ⟨bs, _, ht, _⟩ | ⟨tail, ht, _⟩ <;>
  · rw [ht]
    cases buf <;> simp [buffer_calls, hb, h4]

/-- The element count is bound to argument 3 once the first three bindings passed, and
the launch is issued once all four passed. -/
theorem offload_binds_and_launches {α : Type} [Add α] (w : World α) (output_file : String)
    (a b c : Matrix α) (t : List Call) (out : List (Line α))
    (k0 : w.clSetKernelArg 0 = CL_SUCCESS) (k1 : w.clSetKernelArg 1 = CL_SUCCESS)
    (k2 : w.clSetKernelArg 2 = CL_SUCCESS) :
    Call.clSetKernelArg 3 sizeof_unsigned_int (KArg.uint (size_a a)) ∈
      (offload w output_file a b c t out).trace ∧
    (w.clSetKernelArg 3 = CL_SUCCESS →
      Call.clEnqueueNDRangeKernel 1 (size_a a) 1 ∈ (offload w output_file a b c t out).trace) := by
  have k0z : w.clSetKernelArg 0 = 0 := k0
  have k1z : w.clSetKernelArg 1 = 0 := k1
  have k2z : w.clSetKernelArg 2 = 0 := k2
  have hn := size_t_of_uint _ (size_a_lt a)
  constructor
  · by_cases k3 : w.clSetKernelArg 3 = 0
    · by_cases k4 : w.SaveMatrix = 0 <;>
        simp [offload, k0z, k1z, k2z, k3, k4, zero_lor, abort, CL_SUCCESS]
    · simp [offload, k0z, k1z, k2z, k3, zero_lor, abort, CL_SUCCESS]
  · intro k3
    have k3z : w.clSetKernelArg 3 = 0 := k3
    by_cases k4 : w.SaveMatrix = 0 <;>
      simp [offload, k0z, k1z, k2z, k3z, k4, zero_lor, abort, CL_SUCCESS, hn]

/-- C10: the element count `size_a` is the product of the two dimensions of A reduced
modulo 2^32; every buffer allocation of the run asks for 4 times that count in bytes,
kernel argument 3 carries that count, and the global work size is that count. The
count equals the true number of elements exactly when the product is below 2^32, and
for the non-empty shape 65536×65536 it is 0. These calls are issued: after a successful
setup the three allocations of 4·size_a bytes are in the trace; once the first three
bindings passed, so is the binding of size_a to argument 3; once all four passed, so is
the launch with global work size size_a. -/
theorem C10_element_count {α : Type} [Add α] (w : World α) :
    size_a (host_a w) = ((host_a w).shape.1 * (host_a w).shape.2) % 2 ^ 32 ∧
    (∀ b f n, Call.clCreateBuffer b f n ∈ (main w).trace → n = size_a (host_a w) * 4) ∧
    (∀ sz v, Call.clSetKernelArg 3 sz (KArg.uint v) ∈ (main w).trace → v = size_a (host_a w)) ∧
    (∀ d g l, Call.clEnqueueNDRangeKernel d g l ∈ (main w).trace → g = size_a (host_a w)) ∧
    (size_a (host_a w) = (host_a w).shape.1 * (host_a w).shape.2 ↔
      (host_a w).shape.1 * (host_a w).shape.2 < 2 ^ 32) ∧
    (∀ data : Nat → α, size_a ⟨(65536, 65536), data⟩ = 0 ∧ 65536 * 65536 ≠ 0) ∧
    (SetupOk w →
      Call.clCreateBuffer Buf.device_a MemFlags.CL_MEM_WRITE_ONLY (size_a (host_a w) * 4) ∈
        (main w).trace ∧
      Call.clCreateBuffer Buf.device_b MemFlags.CL_MEM_WRITE_ONLY (size_a (host_a w) * 4) ∈
        (main w).trace ∧
      Call.clCreateBuffer Buf.device_c MemFlags.CL_MEM_WRITE_ONLY (size_a (host_a w) * 4) ∈
        (main w).trace ∧
      (w.clSetKernelArg 0 = CL_SUCCESS → w.clSetKernelArg 1 = CL_SUCCESS →
        w.clSetKernelArg 2 = CL_SUCCESS →
        Call.clSetKernelArg 3 sizeof_unsigned_int (KArg.uint (size_a (host_a w))) ∈
          (main w).trace ∧
        (w.clSetKernelArg 3 = CL_SUCCESS →
          Call.clEnqueueNDRangeKernel 1 (size_a (host_a w)) 1 ∈ (main w).trace))) := by
  have hn := size_t_of_uint _ (size_a_lt (host_a w))
  have hb := byte_count_eq _ (size_a_lt (host_a w))
  refine ⟨rfl, ?_, ?_, ?_, ?_, ?_, ?_⟩
  rotate_right
  · intro hsetup
    obtain ⟨dev, hm⟩ := offload_of_SetupOk w hsetup
    rw [hm]
    exact ⟨offload_allocates _ _ _ _ _ _ _ _, offload_allocates _ _ _ _ _ _ _ _,
      offload_allocates _ _ _ _ _ _ _ _,
      fun k0 k1 k2 => offload_binds_and_launches _ _ _ _ _ _ _ k0 k1 k2⟩
  · intro b f n h
    rcases main_shape w with ⟨_, hs, _⟩ | ⟨dev, bs, _, hbs, ht, _⟩ | ⟨dev, tail, _, ht, _, htail⟩
    · have := hs _ h
      simp [isSetup] at this
    · rw [ht] at h
      simp [setup_calls, buffer_calls, hb] at h
      rcases h with h | h | h | h
      · omega
      · omega
      · omega
      · have := hbs _ h
        simp [bind_calls] at this
    · rw [ht] at h
      rcases htail with ⟨rfl, _⟩ | ⟨rfl, _⟩ <;>
      · simp [setup_calls, buffer_calls, bind_calls, dispatch_calls, teardown_calls, hb] at h
        omega
  · intro sz v h
    rcases main_shape w with ⟨_, hs, _⟩ | ⟨dev, bs, _, hbs, ht, _⟩ | ⟨dev, tail, _, ht, _, htail⟩
    · have := hs _ h
      simp [isSetup] at this
    · rw [ht] at h
      simp [setup_calls, buffer_calls] at h
      have := hbs _ h
      simp [bind_calls] at this
      exact this.2
    · rw [ht] at h
      rcases htail with ⟨rfl, _⟩ | ⟨rfl, _⟩ <;>
      · simp [setup_calls, buffer_calls, bind_calls, dispatch_calls, teardown_calls] at h
        exact h.2
  · intro d g l h
    exact (launch_inv w d g l h).2.1
  · unfold size_a UINT_BITS
    constructor
    · intro h
      rw [← h]
      exact Nat.mod_lt _ (by norm_num)
    · intro h
      exact Nat.mod_eq_of_lt h
  · intro data
    refine ⟨?_, by norm_num⟩
    show (65536 * 65536) % 2 ^ 32 = 0
    norm_num

/-- Witness of C10 on the scenario of the spec (A is 1×4): the setup succeeds, the three
16-byte allocations, the binding of 4 to argument 3 and the launch of global size 4 are
in the trace, and 4 is the count that every such call carries. -/
theorem C10_element_count_witness :
    (SetupOk world_scenario ∧ world_scenario.clSetKernelArg 0 = CL_SUCCESS ∧
      world_scenario.clSetKernelArg 1 = CL_SUCCESS ∧
      world_scenario.clSetKernelArg 2 = CL_SUCCESS ∧
      world_scenario.clSetKernelArg 3 = CL_SUCCESS) ∧
    (Call.clCreateBuffer Buf.device_a MemFlags.CL_MEM_WRITE_ONLY 16 ∈
        (main world_scenario).trace ∧
      Call.clCreateBuffer Buf.device_b MemFlags.CL_MEM_WRITE_ONLY 16 ∈
        (main world_scenario).trace ∧
      Call.clCreateBuffer Buf.device_c MemFlags.CL_MEM_WRITE_ONLY 16 ∈
        (main world_scenario).trace) ∧
    Call.clSetKernelArg 3 sizeof_unsigned_int (KArg.uint 4) ∈ (main world_scenario).trace ∧
    Call.clEnqueueNDRangeKernel 1 4 1 ∈ (main world_scenario).trace ∧
    16 = size_a (host_a world_scenario) * 4 ∧ 4 = size_a (host_a world_scenario) ∧
    4 = size_a (host_a world_scenario) :=
  ⟨⟨by decide, by decide, by decide, by decide, by decide⟩,
    ⟨((C10_element_count world_scenario).2.2.2.2.2.2 (by decide)).1,
      ((C10_element_count world_scenario).2.2.2.2.2.2 (by decide)).2.1,
      ((C10_element_count world_scenario).2.2.2.2.2.2 (by decide)).2.2.1⟩,
    (((C10_element_count world_scenario).2.2.2.2.2.2 (by decide)).2.2.2 (by decide) (by decide)
      (by decide)).1,
    (((C10_element_count world_scenario).2.2.2.2.2.2 (by decide)).2.2.2 (by decide) (by decide)
      (by decide)).2 (by decide),
    (C10_element_count world_scenario).2.1 Buf.device_c MemFlags.CL_MEM_WRITE_ONLY 16 (by decide),
    (C10_element_count world_scenario).2.2.1 sizeof_unsigned_int 4 (by decide),
    (C10_element_count world_scenario).2.2.2.1 1 4 1 (by decide)⟩

/-! ## Transfers and the saved matrix -/

/-- C9: when `main` returns 0, `SaveMatrix` was called on the output path with a matrix
whose shape is the shape loaded from that path, whatever the operands are; the data of
that matrix agrees with the loaded template outside the downloaded range, and is the
template data unchanged if the download reported a failure. -/
theorem C9_saved_shape {α : Type} [Add α] (w : World α) (h : (main w).exit = some 0) :
    ∃ m, (main w).saved = some m ∧
      Call.SaveMatrix (w.argv 3) m.shape ∈ (main w).trace ∧
      m.shape = (host_c w).shape ∧
      (∀ i, size_a (host_a w) ≤ i → m.data i = (host_c w).data i) ∧
      (w.clEnqueueReadBuffer ≠ CL_SUCCESS → m.data = (host_c w).data) := by
  obtain ⟨dev, ht, hs⟩ := main_success w h
  refine ⟨_, hs, ?_, rfl, ?_, ?_⟩
  · rw [ht]
    simp [host_c_at_save]
  · intro i hi
    have hb := byte_count_eq _ (size_a_lt (host_a w))
    by_cases hr : w.clEnqueueReadBuffer = CL_SUCCESS
    · have : ¬ i < 4 * size_a (host_a w) / sizeof_float := by
        unfold sizeof_float
        omega
      simp [host_c_at_save, hr, transfer, hb, this]
    · simp [host_c_at_save, hr]
  · intro hr
    simp [host_c_at_save, hr]

/-- Witness of C9: operands of shape 1×4, template of shape 2×3; the saved shape is 2×3. -/
theorem C9_saved_shape_witness :
    (main world_template_2x3).exit = some 0 ∧
    ∃ m, (main world_template_2x3).saved = some m ∧
      Call.SaveMatrix (world_template_2x3.argv 3) m.shape ∈ (main world_template_2x3).trace ∧
      m.shape = (host_c world_template_2x3).shape ∧
      (∀ i, size_a (host_a world_template_2x3) ≤ i →
        m.data i = (host_c world_template_2x3).data i) ∧
      (world_template_2x3.clEnqueueReadBuffer ≠ CL_SUCCESS →
        m.data = (host_c world_template_2x3).data) :=
  ⟨by decide, C9_saved_shape world_template_2x3 (by decide)⟩

/-- C8, as the code has it: when `main` returns 0, the transfers of the run are exactly
the upload of host_a, the upload of host_b and the download into host_c, each of
4 × size_a bytes, where size_a comes from the shape of A alone; no length of B or of
the template enters. -/
theorem C8_transfers_use_size_a {α : Type} [Add α] (w : World α)
    (h : (main w).exit = some 0) :
    (main w).trace.filter isTransfer =
      [Call.clEnqueueWriteBuffer Buf.device_a (4 * size_a (host_a w)) HostPtr.host_a_data,
       Call.clEnqueueWriteBuffer Buf.device_b (4 * size_a (host_a w)) HostPtr.host_b_data,
       Call.clEnqueueReadBuffer Buf.device_c (4 * size_a (host_a w)) HostPtr.host_c_data] := by
  obtain ⟨dev, ht, _⟩ := main_success w h
  have hb := byte_count_eq _ (size_a_lt (host_a w))
  rw [ht]
  simp [setup_calls, buffer_calls, bind_calls, dispatch_calls, teardown_calls, hb,
    List.filter, isTransfer]

/-- Witness of C8 (amended) on a run whose operand B has two elements and A four. -/
theorem C8_transfers_use_size_a_witness :
    (main world_short_b).exit = some 0 ∧
    (main world_short_b).trace.filter isTransfer =
      [Call.clEnqueueWriteBuffer Buf.device_a (4 * size_a (host_a world_short_b))
         HostPtr.host_a_data,
       Call.clEnqueueWriteBuffer Buf.device_b (4 * size_a (host_a world_short_b))
         HostPtr.host_b_data,
       Call.clEnqueueReadBuffer Buf.device_c (4 * size_a (host_a world_short_b))
         HostPtr.host_c_data] :=
  ⟨by decide, C8_transfers_use_size_a world_short_b (by decide)⟩

/-- C8 fails as stated: operand B holds 2 elements (8 bytes) while the buffers hold
16 bytes; the run still uploads 16 bytes from the data of B, is not aborted, calls
`SaveMatrix` and returns 0. -/
theorem C8_counterexample :
    (host_b world_short_b).shape.1 * (host_b world_short_b).shape.2 * sizeof_float = 8 ∧
    Call.clCreateBuffer Buf.device_b MemFlags.CL_MEM_WRITE_ONLY 16 ∈ (main world_short_b).trace ∧
    Call.clEnqueueWriteBuffer Buf.device_b 16 HostPtr.host_b_data ∈ (main world_short_b).trace ∧
    Call.SaveMatrix "c.raw" (1, 4) ∈ (main world_short_b).trace ∧
    (main world_short_b).stderr = [] ∧
    (main world_short_b).exit = some 0 := by
  decide

/-! ## Resource lifecycle -/

/-- C6, as the code has it: when `main` returns 0 it created context, queue, program,
kernel, device_a, device_b, device_c in that order and gave back device_a, device_b,
device_c, kernel, program, queue, context in that order. -/
theorem C6_acquire_release_order {α : Type} [Add α] (w : World α)
    (h : (main w).exit = some 0) :
    acquisitions (main w).trace =
      [Resource.context, Resource.queue, Resource.program, Resource.kernel,
       Resource.buffer Buf.device_a, Resource.buffer Buf.device_b,
       Resource.buffer Buf.device_c] ∧
    given_back (main w).trace =
      [Resource.buffer Buf.device_a, Resource.buffer Buf.device_b,
       Resource.buffer Buf.device_c, Resource.kernel, Resource.program, Resource.queue,
       Resource.context] := by
  obtain ⟨dev, ht, _⟩ := main_success w h
  rw [ht]
  constructor
  · simp [acquisitions, setup_calls, buffer_calls, bind_calls, dispatch_calls, teardown_calls,
      List.filterMap, acquires]
  · simp [given_back, setup_calls, buffer_calls, bind_calls, dispatch_calls, teardown_calls,
      List.filterMap, gives_back]

/-- Witness of C6 (amended) on the scenario of the spec. -/
theorem C6_acquire_release_order_witness :
    (main world_scenario).exit = some 0 ∧
    (acquisitions (main world_scenario).trace =
      [Resource.context, Resource.queue, Resource.program, Resource.kernel,
       Resource.buffer Buf.device_a, Resource.buffer Buf.device_b,
       Resource.buffer Buf.device_c] ∧
    given_back (main world_scenario).trace =
      [Resource.buffer Buf.device_a, Resource.buffer Buf.device_b,
       Resource.buffer Buf.device_c, Resource.kernel, Resource.program, Resource.queue,
       Resource.context]) :=
  ⟨by decide, C6_acquire_release_order world_scenario (by decide)⟩

/-- C6 fails as stated: on the scenario of the spec `main` returns 0 and the sequence of
objects given back is not the reverse of the sequence of objects created (the buffers
go back first-created first). -/
theorem C6_counterexample :
    (main world_scenario).exit = some 0 ∧
    given_back (main world_scenario).trace ≠ (acquisitions (main world_scenario).trace).reverse := by
  decide

theorem not_release_of_setup (c : Call) (h : isSetup c = true) : isRelease c = false := by
  cases c <;> simp [isSetup] at h <;> simp [isRelease]

/-- A run that ends in `exit(EXIT_FAILURE)` has written to standard error and has
issued no release call and no `free`. -/
theorem no_release_of_exit_failure {α : Type} [Add α] (w : World α)
    (h : (main w).exit = some EXIT_FAILURE) :
    (main w).stderr ≠ [] ∧ ∀ c ∈ (main w).trace, isRelease c = false := by
  rcases main_shape w with ⟨_, hs, ⟨code, _, _, herr⟩ | ⟨he, _⟩⟩ | ⟨dev, bs, _, hbs, ht, _, _, herr⟩ |
    ⟨dev, tail, _, ht, _, ⟨rfl, _, herr⟩ | ⟨_, he⟩⟩
  · exact ⟨herr, fun c hc => not_release_of_setup c (hs c hc)⟩
  · rw [he] at h
    simp at h
  · refine ⟨herr, ?_⟩
    intro c hc
    rw [ht] at hc
    simp only [List.mem_append] at hc
    rcases hc with ((hc | hc) | hc) | hc
    · simp [setup_calls] at hc
      rcases hc with hc | hc | hc | hc | hc | hc | hc | hc | hc | hc <;> subst hc <;>
        simp [isRelease]
    · simp [buffer_calls] at hc
      rcases hc with hc | hc | hc | hc | hc <;> subst hc <;> simp [isRelease]
    · have := hbs c hc
      simp [bind_calls] at this
      rcases this with hc | hc | hc | hc <;> subst hc <;> simp [isRelease]
    · simp at hc
      subst hc
      simp [isRelease]
  · refine ⟨herr, ?_⟩
    intro c hc
    rw [ht] at hc
    simp [setup_calls, buffer_calls, bind_calls, dispatch_calls] at hc
    rcases hc with hc | hc | hc | hc | hc | hc | hc | hc | hc | hc | hc | hc | hc | hc | hc |
      hc | hc | hc | hc | hc | hc | hc | hc | hc <;> subst hc <;> simp [isRelease]
  · rw [he] at h
    simp [EXIT_FAILURE] at h

/-- The run stops right after the first call whose tested status is not CL_SUCCESS. -/
theorem stop_at_first_failure {α : Type} [Add α] (w : World α) (dev : Nat) (pre : List Call)
    (c : Call) (msg : String) (err : cl_int) (hargc : w.argc = 4)
    (hdev : Call.OclFindPlatforms ∈ pre →
      first_device_id (OclFindPlatforms w.enum_status w.enum_platforms).2.1 = some dev)
    (hfirst : first_failure w (full_calls w dev) = some (pre, c, msg, err)) :
    (main w).trace = pre ++ [c, Call.exit EXIT_FAILURE] ∧
    (main w).stderr = [Diag.failed msg err] ∧
    (main w).exit = some EXIT_FAILURE := by
  by_cases h1 : (w.LoadMatrix (w.argv 1)).1 = 0
  swap
  · simp [full_calls, setup_calls, buffer_calls, bind_calls, dispatch_calls, first_failure,
      check, CL_SUCCESS, h1] at hfirst
    obtain ⟨rfl, rfl, rfl, rfl⟩ := hfirst
    simp [main, hargc, abort, CL_SUCCESS, h1]
  by_cases h2 : (w.LoadMatrix (w.argv 2)).1 = 0
  swap
  · simp [full_calls, setup_calls, buffer_calls, bind_calls, dispatch_calls, first_failure,
      check, CL_SUCCESS, h1, h2] at hfirst
    obtain ⟨rfl, rfl, rfl, rfl⟩ := hfirst
    simp [main, hargc, abort, CL_SUCCESS, h1, h2]
  by_cases h3 : (w.LoadMatrix (w.argv 3)).1 = 0
  swap
  · simp [full_calls, setup_calls, buffer_calls, bind_calls, dispatch_calls, first_failure,
      check, CL_SUCCESS, h1, h2, h3] at hfirst
    obtain ⟨rfl, rfl, rfl, rfl⟩ := hfirst
    simp [main, hargc, abort, CL_SUCCESS, h1, h2, h3]
  by_cases h4 : (OclFindPlatforms w.enum_status w.enum_platforms).1 = 0
  swap
  · simp [full_calls, setup_calls, buffer_calls, bind_calls, dispatch_calls, first_failure,
      check, CL_SUCCESS, h1, h2, h3, h4] at hfirst
    obtain ⟨rfl, rfl, rfl, rfl⟩ := hfirst
    simp [main, hargc, abort, CL_SUCCESS, h1, h2, h3, h4]
  by_cases h5 : w.clCreateContext = 0
  swap
  · simp [full_calls, setup_calls, buffer_calls, bind_calls, dispatch_calls, first_failure,
      check, CL_SUCCESS, h1, h2, h3, h4, h5] at hfirst
    obtain ⟨rfl, rfl, rfl, rfl⟩ := hfirst
    have hd := hdev (by simp)
    simp [main, offload, host_a, host_c, hargc, hd, abort, zero_lor, CL_SUCCESS, h1, h2, h3, h4, h5]
  by_cases h6 : w.clCreateCommandQueueWithProperties = 0
  swap
  · simp [full_calls, setup_calls, buffer_calls, bind_calls, dispatch_calls, first_failure,
      check, CL_SUCCESS, h1, h2, h3, h4, h5, h6] at hfirst
    obtain ⟨rfl, rfl, rfl, rfl⟩ := hfirst
    have hd := hdev (by simp)
    simp [main, offload, host_a, host_c, hargc, hd, abort, zero_lor, CL_SUCCESS, h1, h2, h3, h4, h5, h6]
  by_cases h7 : w.clCreateProgramWithSource = 0
  swap
  · simp [full_calls, setup_calls, buffer_calls, bind_calls, dispatch_calls, first_failure,
      check, CL_SUCCESS, h1, h2, h3, h4, h5, h6, h7] at hfirst
    obtain ⟨rfl, rfl, rfl, rfl⟩ := hfirst
    have hd := hdev (by simp)
    simp [main, offload, host_a, host_c, hargc, hd, abort, zero_lor, CL_SUCCESS, h1, h2, h3, h4, h5, h6, h7]
  by_cases h8 : w.clBuildProgram = 0
  swap
  · simp [full_calls, setup_calls, buffer_calls, bind_calls, dispatch_calls, first_failure,
      check, CL_SUCCESS, h1, h2, h3, h4, h5, h6, h7, h8] at hfirst
    obtain ⟨rfl, rfl, rfl, rfl⟩ := hfirst
    have hd := hdev (by simp)
    simp [main, offload, host_a, host_c, hargc, hd, abort, zero_lor, CL_SUCCESS, h1, h2, h3, h4, h5, h6, h7, h8]
  by_cases h9 : w.clCreateKernel = 0
  swap
  · simp [full_calls, setup_calls, buffer_calls, bind_calls, dispatch_calls, first_failure,
      check, CL_SUCCESS, h1, h2, h3, h4, h5, h6, h7, h8, h9] at hfirst
    obtain ⟨rfl, rfl, rfl, rfl⟩ := hfirst
    have hd := hdev (by simp)
    simp [main, offload, host_a, host_c, hargc, hd, abort, zero_lor, CL_SUCCESS, h1, h2, h3, h4, h5, h6, h7, h8, h9]
  by_cases k0 : w.clSetKernelArg 0 = 0
  swap
  · simp [full_calls, setup_calls, buffer_calls, bind_calls, dispatch_calls, first_failure,
      check, CL_SUCCESS, h1, h2, h3, h4, h5, h6, h7, h8, h9, k0] at hfirst
    obtain ⟨rfl, rfl, rfl, rfl⟩ := hfirst
    have hd := hdev (by simp)
    simp [main, offload, host_a, host_c, hargc, hd, abort, zero_lor, CL_SUCCESS, h1, h2, h3, h4, h5, h6, h7, h8, h9, k0]
  by_cases k1 : w.clSetKernelArg 1 = 0
  swap
  · simp [full_calls, setup_calls, buffer_calls, bind_calls, dispatch_calls, first_failure,
      check, CL_SUCCESS, h1, h2, h3, h4, h5, h6, h7, h8, h9, k0, k1] at hfirst
    obtain ⟨rfl, rfl, rfl, rfl⟩ := hfirst
    have hd := hdev (by simp)
    simp [main, offload, host_a, host_c, hargc, hd, abort, zero_lor, CL_SUCCESS, h1, h2, h3, h4, h5, h6, h7, h8, h9, k0, k1]
  by_cases k2 : w.clSetKernelArg 2 = 0
  swap
  · simp [full_calls, setup_calls, buffer_calls, bind_calls, dispatch_calls, first_failure,
      check, CL_SUCCESS, h1, h2, h3, h4, h5, h6, h7, h8, h9, k0, k1, k2] at hfirst
    obtain ⟨rfl, rfl, rfl, rfl⟩ := hfirst
    have hd := hdev (by simp)
    simp [main, offload, host_a, host_c, hargc, hd, abort, zero_lor, CL_SUCCESS, h1, h2, h3, h4, h5, h6, h7, h8, h9, k0, k1, k2]
  by_cases k3 : w.clSetKernelArg 3 = 0
  swap
  · simp [full_calls, setup_calls, buffer_calls, bind_calls, dispatch_calls, first_failure,
      check, CL_SUCCESS, h1, h2, h3, h4, h5, h6, h7, h8, h9, k0, k1, k2, k3] at hfirst
    obtain ⟨rfl, rfl, rfl, rfl⟩ := hfirst
    have hd := hdev (by simp)
    simp [main, offload, host_a, host_c, hargc, hd, abort, zero_lor, CL_SUCCESS, h1, h2, h3, h4, h5, h6, h7, h8, h9, k0, k1, k2, k3]
  by_cases k4 : w.SaveMatrix = 0
  swap
  · simp [full_calls, setup_calls, buffer_calls, bind_calls, dispatch_calls, first_failure,
      check, CL_SUCCESS, h1, h2, h3, h4, h5, h6, h7, h8, h9, k0, k1, k2, k3, k4] at hfirst
    obtain ⟨rfl, rfl, rfl, rfl⟩ := hfirst
    have hd := hdev (by simp)
    simp [main, offload, host_a, host_c, hargc, hd, abort, zero_lor, CL_SUCCESS, h1, h2, h3, h4, h5, h6, h7, h8, h9, k0, k1, k2, k3, k4]
  simp [full_calls, setup_calls, buffer_calls, bind_calls, dispatch_calls, first_failure,
    check, CL_SUCCESS, h1, h2, h3, h4, h5, h6, h7, h8, h9, k0, k1, k2, k3, k4] at hfirst

/-- C7, as the code has it: when a step that `main` tests is the first to report a
non-success status, the run consists of the calls up to that step followed at once by
`exit(EXIT_FAILURE)`, the message of that step is the only output on standard error,
and the run contains no release call and no `free`. -/
theorem C7_failure_releases_nothing {α : Type} [Add α] (w : World α) (dev : Nat)
    (pre : List Call) (c : Call) (msg : String) (err : cl_int) (hargc : w.argc = 4)
    (hdev : Call.OclFindPlatforms ∈ pre →
      first_device_id (OclFindPlatforms w.enum_status w.enum_platforms).2.1 = some dev)
    (hfirst : first_failure w (full_calls w dev) = some (pre, c, msg, err)) :
    (main w).trace = pre ++ [c, Call.exit EXIT_FAILURE] ∧
    (main w).stderr = [Diag.failed msg err] ∧
    (main w).exit = some EXIT_FAILURE ∧
    ∀ x ∈ (main w).trace, isRelease x = false := by
  obtain ⟨ht, herr, hexit⟩ := stop_at_first_failure w dev pre c msg err hargc hdev hfirst
  exact ⟨ht, herr, hexit, (no_release_of_exit_failure w hexit).2⟩

/-- Witness of C7 (amended): queue creation is the first tested step to fail, after the
context was created. -/
theorem C7_failure_releases_nothing_witness :
    (world_queue_fails.argc = 4 ∧
      first_failure world_queue_fails (full_calls world_queue_fails 7) =
        some ([Call.OclLoadKernel KERNEL_PATH, Call.LoadMatrix "a.raw" HostPtr.host_a_data,
          Call.LoadMatrix "b.raw" HostPtr.host_b_data, Call.LoadMatrix "c.raw" HostPtr.host_c_data,
          Call.OclFindPlatforms, Call.clCreateContext 7],
          Call.clCreateCommandQueueWithProperties 7, "clCreateCommandQueueWithProperties", -6)) ∧
    ((main world_queue_fails).trace =
        [Call.OclLoadKernel KERNEL_PATH, Call.LoadMatrix "a.raw" HostPtr.host_a_data,
          Call.LoadMatrix "b.raw" HostPtr.host_b_data, Call.LoadMatrix "c.raw" HostPtr.host_c_data,
          Call.OclFindPlatforms, Call.clCreateContext 7] ++
        [Call.clCreateCommandQueueWithProperties 7, Call.exit EXIT_FAILURE] ∧
      (main world_queue_fails).stderr =
        [Diag.failed "clCreateCommandQueueWithProperties" (-6)] ∧
      (main world_queue_fails).exit = some EXIT_FAILURE ∧
      ∀ x ∈ (main world_queue_fails).trace, isRelease x = false) :=
  ⟨⟨by decide, by decide⟩,
    C7_failure_releases_nothing world_queue_fails 7 _ _ _ _ (by decide) (fun _ => by decide)
      (by decide)⟩

/-- C7 fails as stated: queue creation fails after the three host matrices, the kernel
source and the context were acquired; the run reports the error and exits without a
single release call or `free`. -/
theorem C7_counterexample :
    (main world_queue_fails).trace =
      [Call.OclLoadKernel KERNEL_PATH, Call.LoadMatrix "a.raw" HostPtr.host_a_data,
       Call.LoadMatrix "b.raw" HostPtr.host_b_data, Call.LoadMatrix "c.raw" HostPtr.host_c_data,
       Call.OclFindPlatforms, Call.clCreateContext 7,
       Call.clCreateCommandQueueWithProperties 7, Call.exit EXIT_FAILURE] ∧
    world_queue_fails.clCreateContext = CL_SUCCESS ∧
    Call.clReleaseContext ∉ (main world_queue_fails).trace ∧
    Call.free HostPtr.host_a_data ∉ (main world_queue_fails).trace ∧
    (main world_queue_fails).stderr =
      [Diag.failed "clCreateCommandQueueWithProperties" (-6)] ∧
    (main world_queue_fails).exit = some EXIT_FAILURE := by
  decide

/-! ## Error paths -/

/-- C5: when enumeration reports an error status or zero platforms, `main` ends with a
non-zero exit status and a message on standard error, `SaveMatrix` is not called and no
matrix is written; if the command line and the three loads were fine, the message names
OclFindPlatforms and the exit status is EXIT_FAILURE. -/
theorem C5_no_platform {α : Type} [Add α] (w : World α)
    (h : w.enum_status ≠ CL_SUCCESS ∨ w.enum_platforms = []) :
    (∃ code, code ≠ 0 ∧ (main w).exit = some code) ∧ (main w).stderr ≠ [] ∧
    (main w).saved = none ∧ (∀ p s, Call.SaveMatrix p s ∉ (main w).trace) ∧
    (w.argc = 4 → (w.LoadMatrix (w.argv 1)).1 = CL_SUCCESS →
      (w.LoadMatrix (w.argv 2)).1 = CL_SUCCESS → (w.LoadMatrix (w.argv 3)).1 = CL_SUCCESS →
      (main w).stderr =
        [Diag.failed "OclFindPlatforms" (OclFindPlatforms w.enum_status w.enum_platforms).1] ∧
      (main w).exit = some EXIT_FAILURE) := by
  have hfail : (OclFindPlatforms w.enum_status w.enum_platforms).1 ≠ CL_SUCCESS := by
    intro hs
    obtain ⟨h1, h2, _⟩ := OclFindPlatforms_success _ _ hs
    rcases h with h | h
    · exact h h1
    · exact h2 h
  have hlast : w.argc = 4 → (w.LoadMatrix (w.argv 1)).1 = CL_SUCCESS →
      (w.LoadMatrix (w.argv 2)).1 = CL_SUCCESS → (w.LoadMatrix (w.argv 3)).1 = CL_SUCCESS →
      (main w).stderr =
        [Diag.failed "OclFindPlatforms" (OclFindPlatforms w.enum_status w.enum_platforms).1] ∧
      (main w).exit = some EXIT_FAILURE := by
    intro h0 h1 h2 h3
    simp [main, h0, h1, h2, h3, hfail, abort]
  rcases main_shape w with ⟨hsv, hs, ⟨code, hc, he, herr⟩ | ⟨_, hd⟩⟩ | ⟨_, _, hd, _⟩ |
    ⟨_, _, hd, _⟩
  · refine ⟨⟨code, hc, he⟩, herr, hsv, ?_, hlast⟩
    intro p s hmem
    have := hs _ hmem
    simp [isSetup] at this
  · exact absurd hd hfail
  · exact absurd hd hfail
  · exact absurd hd hfail

/-- Witness of C5: the scenario of the spec on a host without any platform. -/
theorem C5_no_platform_witness :
    (world_no_platform.enum_status ≠ CL_SUCCESS ∨ world_no_platform.enum_platforms = []) ∧
    (main world_no_platform).exit = some EXIT_FAILURE ∧
    (main world_no_platform).saved = none :=
  ⟨Or.inr rfl,
    ((C5_no_platform world_no_platform (Or.inr rfl)).2.2.2.2 (by decide) (by decide) (by decide)
      (by decide)).2,
    (C5_no_platform world_no_platform (Or.inr rfl)).2.2.1⟩

/-- C4 is violated by the code: with a launch that returns CL_OUT_OF_RESOURCES and every
other call succeeding, `main` prints no error, goes on to `clFinish`, the download and
`SaveMatrix`, issues the same calls as the fully successful run, saves the untouched
contents of device_c and returns 0. -/
theorem C4_unchecked_launch_failure :
    world_launch_fails.clEnqueueNDRangeKernel ≠ CL_SUCCESS ∧
    (main world_launch_fails).trace = (main world_scenario).trace ∧
    Call.clFinish ∈ (main world_launch_fails).trace ∧
    Call.clEnqueueReadBuffer Buf.device_c 16 HostPtr.host_c_data ∈ (main world_launch_fails).trace ∧
    Call.SaveMatrix "c.raw" (1, 4) ∈ (main world_launch_fails).trace ∧
    (main world_launch_fails).stderr = [] ∧
    (main world_launch_fails).exit = some 0 ∧
    (main world_launch_fails).saved.map (fun m => (List.range 4).map m.data) = some [0, 0, 0, 0] := by
  decide

/-! ## The computed result -/

/-- When every call succeeds, `main` returns 0. -/
theorem exit_of_AllSucceed {α : Type} [Add α] (w : World α) (h : AllSucceed w) :
    (main w).exit = some 0 := by
  obtain ⟨h0, h1, h2, h3, h4, h5, h6, h7, h8, h9, h10, _, _, _, _, _, k0, k1, k2, k3, _, _, _,
    hs⟩ := h
  obtain ⟨hf, dev, hdev⟩ := first_device_of_enum w h4 h5
  have k0z : w.clSetKernelArg 0 = 0 := k0
  have k1z : w.clSetKernelArg 1 = 0 := k1
  have k2z : w.clSetKernelArg 2 = 0 := k2
  have k3z : w.clSetKernelArg 3 = 0 := k3
  have hsz : w.SaveMatrix = 0 := hs
  simp [main, h0, h1, h2, h3, hf, hdev, h6, h7, h8, h9, h10, offload, k0z, k1z, k2z, k3z, hsz,
    zero_lor, CL_SUCCESS]

/-- Row-major offsets of an m×n matrix stay below m·n. -/
theorem row_major_lt (m n i j : Nat) (hi : i < m) (hj : j < n) : i * n + j < m * n := by
  calc i * n + j < i * n + n := by omega
    _ = (i + 1) * n := by ring
    _ ≤ m * n := Nat.mul_le_mul_right n hi

/-- C1, as the code has it: for operands A and B and an output template of one common
shape m×n with m·n below 2^32, a run in which every call reports success returns 0 and
hands to `SaveMatrix` a matrix C of shape m×n with C[i][j] = A[i][j] + B[i][j] for all
i below m and j below n (row-major offsets i·n + j), provided the device serves the
kernel reads of device_a and device_b, which main.c creates CL_MEM_WRITE_ONLY, from
their contents. -/
theorem C1_elementwise_sum {α : Type} [Add α] (w : World α) (m n : Nat)
    (hok : AllSucceed w) (hread : ReadsThrough w)
    (ha : (host_a w).shape = (m, n)) (_hb : (host_b w).shape = (m, n))
    (hc : (host_c w).shape = (m, n)) (hsmall : m * n < 2 ^ 32) :
    (main w).exit = some 0 ∧
    ∃ C, (main w).saved = some C ∧ C.shape = (m, n) ∧
      ∀ i j, i < m → j < n →
        C.data (i * n + j) = (host_a w).data (i * n + j) + (host_b w).data (i * n + j) := by
  have hexit := exit_of_AllSucceed w hok
  obtain ⟨dev, _, hsaved⟩ := main_success w hexit
  refine ⟨hexit, _, hsaved, hc, ?_⟩
  intro i j hi hj
  have hidx := row_major_lt m n i j hi hj
  obtain ⟨_, _, _, _, _, _, _, _, _, _, _, _, _, _, hwa, hwb, _, _, _, _, hl, _, hr, _⟩ := hok
  have hsize : size_a (host_a w) = m * n := by
    unfold size_a UINT_BITS
    rw [ha]
    exact Nat.mod_eq_of_lt hsmall
  have hbytes : byte_count (m * n) / sizeof_float = m * n := by
    rw [byte_count_eq _ hsmall]
    unfold sizeof_float
    omega
  have hglobal : m * n % 2 ^ SIZE_BITS = m * n := size_t_of_uint _ hsmall
  simp [host_c_at_save, device_c_at_download, hr, hl, hwa, hwb, hsize, transfer, runKernel,
    kernel_read, hread Buf.device_a, hread Buf.device_b, vectorAdd, hbytes, hglobal, hidx]

/-- Witness of C1 (amended): the scenario of the spec, A = [1,2,3,4] and B = [5,6,7,8] of
shape 1×4; the saved data is [6,8,10,12]. -/
theorem C1_elementwise_sum_witness :
    (AllSucceed world_scenario ∧ ReadsThrough world_scenario ∧ 1 * 4 < 2 ^ 32) ∧
    ((main world_scenario).exit = some 0 ∧
      ∃ C, (main world_scenario).saved = some C ∧ C.shape = (1, 4) ∧
        ∀ i j, i < 1 → j < 4 →
          C.data (i * 4 + j) =
            (host_a world_scenario).data (i * 4 + j) + (host_b world_scenario).data (i * 4 + j)) ∧
    (main world_scenario).saved.map (fun C => (List.range 4).map C.data) = some [6, 8, 10, 12] :=
  ⟨⟨by decide, fun _ _ => rfl, by decide⟩,
    C1_elementwise_sum world_scenario 1 4 (by decide) (fun _ _ => rfl) rfl rfl rfl (by decide),
    by decide⟩

/-- The flags of lines 92 and 93 matter: on a device that does not serve kernel reads
of write-only buffers from their contents, every call of the scenario succeeds and the
saved data is not the sum. -/
theorem write_only_inputs_matter :
    AllSucceed world_opaque_reads ∧ (main world_opaque_reads).exit = some 0 ∧
    (main world_opaque_reads).saved.map (fun C => (List.range 4).map C.data) =
      some [0, 0, 0, 0] := by
  decide

/-- C1 fails as stated: A, B and the template all have shape 65536×65537 and every call
reports success, yet the saved element at row 0, column 65536 is the template value 0,
not A[0][65536] + B[0][65536] = 3; only 65536 elements went through the device. -/
theorem C1_counterexample :
    AllSucceed world_wide ∧
    (host_a world_wide).shape = (65536, 65537) ∧ (host_b world_wide).shape = (65536, 65537) ∧
    (host_c world_wide).shape = (65536, 65537) ∧
    (main world_wide).exit = some 0 ∧
    size_a (host_a world_wide) = 65536 ∧
    ∃ C, (main world_wide).saved = some C ∧ C.shape = (65536, 65537) ∧
      (0 < 65536 ∧ 65536 < 65537) ∧
      C.data (0 * 65537 + 65536) = 0 ∧
      (host_a world_wide).data (0 * 65537 + 65536) +
        (host_b world_wide).data (0 * 65537 + 65536) = 3 :=
  ⟨by decide, rfl, rfl, rfl, by decide, by decide,
    host_c_at_save world_wide (host_a world_wide) (host_b world_wide) (host_c world_wide),
    rfl, rfl, by decide, by decide, by decide⟩

end VectorAdd
